import Mathlib

/-!
Verification of the `sqlite3perf` repository (Go): the `generate` command
(`cmd/root.go`, `generateCmd`) and the `bench` command (`benchCmd`).

Shallow embedding conventions:
* Bytes are `Fin 256`; byte slices are `List (Fin 256)`.
* Database TEXT values are `List Char`.
* The SHA256 digest (`crypto/sha256`, an external library) is an abstract
  parameter `digest : List (Fin 256) → List (Fin 256)`.
* The random source (`crypto/rand`) is an oracle `Nat → List (Fin 256)`
  giving the bytes read at loop iteration `i` (the program reads 8 bytes
  per iteration; the length is immaterial to the properties proved here).
* Fallible external calls (`sql.Open`, `db.Exec`, `rand.Read`, `st.Exec`,
  `db.Query`, `rows.Scan`, `rows.Err`, `rows.Close`) are modelled by
  boolean error injections in an environment structure.
* `log.Fatal`/`os.Exit(1)` become a `fatal` outcome; a Go runtime panic
  (integer division by zero, nil pointer dereference) becomes `panicked`.
-/

namespace Sqlite3perf

/-! ## encoding/hex

`hex.EncodeToString` uses the table `"0123456789abcdef"`;
`hex.DecodeString` accepts `0-9`, `a-f` and `A-F` and fails on any other
character or on an odd-length input. -/

/-- Hex digit character for `n < 16`, per the table `"0123456789abcdef"`
(`'0'` is code 48, `'a'` is code 97). -/
def hexDigitChar (n : Nat) : Char :=
  if n < 10 then Char.ofNat (48 + n) else Char.ofNat (87 + n)

/-- `hex.EncodeToString` of one byte: high nibble then low nibble. -/
def hexEncodeByte (b : Fin 256) : List Char :=
  [hexDigitChar (b.val / 16), hexDigitChar (b.val % 16)]

/-- `hex.EncodeToString`: two lowercase hex characters per byte. -/
def hexEncode : List (Fin 256) → List Char
  | [] => []
  | b :: rest => hexEncodeByte b ++ hexEncode rest

/-- `encoding/hex.fromHexChar`: value of one hex character, accepting
`'0'-'9'`, `'a'-'f'` and `'A'-'F'`. -/
def fromHexChar (c : Char) : Option (Fin 16) :=
  if h : 48 ≤ c.toNat ∧ c.toNat ≤ 57 then some ⟨c.toNat - 48, by omega⟩
  else if h : 97 ≤ c.toNat ∧ c.toNat ≤ 102 then some ⟨c.toNat - 87, by omega⟩
  else if h : 65 ≤ c.toNat ∧ c.toNat ≤ 70 then some ⟨c.toNat - 55, by omega⟩
  else none

/-- `hex.DecodeString`: consumes characters two at a time; fails on an
odd-length input (`ErrLength`) or on an invalid character. -/
def hexDecode : List Char → Option (List (Fin 256))
  | [] => some []
  | [_] => none
  | c1 :: c2 :: rest =>
    match fromHexChar c1, fromHexChar c2, hexDecode rest with
    | some hi, some lo, some tail =>
        some (⟨16 * hi.val + lo.val, by
          have h1 := hi.isLt
          have h2 := lo.isLt
          omega⟩ :: tail)
    | some _, some _, none => none
    | some _, none, _ => none
    | none, _, _ => none

theorem fromHexChar_hexDigitChar (n : Fin 16) :
    fromHexChar (hexDigitChar n.val) = some n := by
  revert n
  decide

theorem hexDecode_hexEncode (bs : List (Fin 256)) :
    hexDecode (hexEncode bs) = some bs := by
  induction bs with
  | nil => rfl
  | cons b rest ih =>
    have hb := b.isLt
    have hhi : fromHexChar (hexDigitChar (b.val / 16)) = some ⟨b.val / 16, by omega⟩ :=
      fromHexChar_hexDigitChar ⟨b.val / 16, by omega⟩
    have hlo : fromHexChar (hexDigitChar (b.val % 16)) = some ⟨b.val % 16, by omega⟩ :=
      fromHexChar_hexDigitChar ⟨b.val % 16, by omega⟩
    show hexDecode (hexDigitChar (b.val / 16) :: hexDigitChar (b.val % 16) :: hexEncode rest)
        = some (b :: rest)
    rw [hexDecode, hhi, hlo, ih]
    show some ((⟨16 * (b.val / 16) + b.val % 16, by omega⟩ : Fin 256) :: rest)
        = some (b :: rest)
    have hfin : (⟨16 * (b.val / 16) + b.val % 16, by omega⟩ : Fin 256) = b := by
      apply Fin.ext
      show 16 * (b.val / 16) + b.val % 16 = b.val
      omega
    rw [hfin]

/-! ## Database model

The table `bench` has columns `(ID int PRIMARY KEY ASC, rand TEXT, hash TEXT)`.
We model the database state as `Option (List Row)`: `none` when no `bench`
table exists, `some rows` otherwise, with rows listed in insertion order. -/

/-- One row of the `bench` table. -/
structure Row where
  id : Int
  rand : List Char
  hash : List Char
deriving DecidableEq, Repr

/-- The SQL statements `generate` issues against the store:
`DROP TABLE IF EXISTS bench`, `CREATE TABLE bench (...)`,
`INSERT INTO bench VALUES(?,?,?)` and `VACUUM`. -/
inductive SqlStmt where
  | dropBench
  | createBench
  | insertRow (id : Int) (rand : List Char) (hash : List Char)
  | vacuumStmt
deriving DecidableEq, Repr

/-- Effect of one statement on the database state. `VACUUM` compacts the
file and leaves the contents unchanged. -/
def applyStmt : Option (List Row) → SqlStmt → Option (List Row)
  | _, .dropBench => none
  | _, .createBench => some []
  | some t, .insertRow a r h => some (t ++ [⟨a, r, h⟩])
  | none, .insertRow _ _ _ => none
  | t, .vacuumStmt => t

/-- Effect of a statement sequence on the database state. -/
def runStmts (s : Option (List Row)) (l : List SqlStmt) : Option (List Row) :=
  l.foldl applyStmt s

/-! ## The `generate` command (`generateCmd.Run` in `cmd/root.go`) -/

/-- Environment of one `generate` invocation: the `--records` flag
(`numRecs`), the `--vacuum` flag, error injections for the external
calls, and the random-byte oracle. `prepareErr` models
`db.Prepare` returning an error — the source discards it
(`st, _ := db.Prepare(...)`), leaving `st` nil. -/
structure GenEnv where
  numRecs : Int
  vacuum : Bool
  openErr : Bool
  dropErr : Bool
  createErr : Bool
  prepareErr : Bool
  randErr : Nat → Bool
  insertErr : Nat → Bool
  oracle : Nat → List (Fin 256)

/-- Reason the insert loop stops early: `rand.Read` failing
(`log.Fatalf`), the nil prepared statement being executed (runtime
panic, since the `db.Prepare` error was discarded), or `st.Exec`
failing (`log.Fatalf`). -/
inductive GenStop where
  | randFatal
  | nilStmtPanic
  | insertFatal
deriving DecidableEq, Repr

/-- Descriptive fatal aborts (`log.Fatalf`) in `generate`. -/
inductive GenFatal where
  | openFailed
  | dropFailed
  | createFailed
  | randFailed
  | insertFailed
deriving DecidableEq, Repr

/-- Outcome of a command: a descriptive fatal abort, a Go runtime panic,
or normal completion. Both `fatal` and `panicked` exit non-zero. -/
inductive GenOutcome where
  | fatal (e : GenFatal)
  | panicked
  | completed
deriving DecidableEq, Repr

/-- The insert loop `for i = 0; i < numRecs; i++` of `generateCmd`:
read 8 random bytes, hash them, insert
`(i, hex(bytes), hex(digest))`. Returns the insert statements executed
and the stop cause, if any. Arguments: current index `i`, remaining
iteration count. -/
def genLoop (digest : List (Fin 256) → List (Fin 256)) (env : GenEnv) :
    Nat → Nat → List SqlStmt × Option GenStop
  | _, 0 => ([], none)
  | i, k + 1 =>
    if env.randErr i then ([], some .randFatal)
    else if env.prepareErr then ([], some .nilStmtPanic)
    else if env.insertErr i then ([], some .insertFatal)
    else
      let b := env.oracle i
      let rest := genLoop digest env (i + 1) k
      (SqlStmt.insertRow (i : Int) (hexEncode b) (hexEncode (digest b)) :: rest.1, rest.2)

/-- `generateCmd.Run`: open the store, drop and recreate `bench`, prepare
the insert statement (error discarded), run the insert loop, then log the
final statistics — `time.Duration(dur.Nanoseconds()/int64(numRecs))`
panics with an integer division by zero when `numRecs = 0` — and finally
`VACUUM` when requested. Returns the outcome and the statements
executed. -/
def generateRun (digest : List (Fin 256) → List (Fin 256)) (env : GenEnv) :
    GenOutcome × List SqlStmt :=
  if env.openErr then (.fatal .openFailed, [])
  else if env.dropErr then (.fatal .dropFailed, [])
  else if env.createErr then (.fatal .createFailed, [.dropBench])
  else
    let r := genLoop digest env 0 env.numRecs.toNat
    let pre := SqlStmt.dropBench :: SqlStmt.createBench :: r.1
    match r.2 with
    | some .randFatal => (.fatal .randFailed, pre)
    | some .nilStmtPanic => (.panicked, pre)
    | some .insertFatal => (.fatal .insertFailed, pre)
    | none =>
      if env.numRecs = 0 then (.panicked, pre)
      else if env.vacuum then (.completed, pre ++ [.vacuumStmt])
      else (.completed, pre)

/-- Database state after one `generate` invocation starting from state `s`. -/
def generateEffect (digest : List (Fin 256) → List (Fin 256)) (env : GenEnv)
    (s : Option (List Row)) : Option (List Row) :=
  runStmts s (generateRun digest env).2

/-! ## The `bench` command (`benchCmd.Run`) -/

/-- One row as scanned by `rows.Scan(&ID, &rand, &hash)`. -/
structure BenchRow where
  ID : Int
  rand : List Char
  hash : List Char
deriving DecidableEq, Repr

/-- Fatal aborts in `bench`: `sql.Open` failing (`os.Exit(1)`),
`db.Query` failing, `rows.Scan` failing, a digest mismatch, or
`rows.Err()` non-nil after the loop (all `log.Fatal`). -/
inductive BenchFatal where
  | openFailed
  | queryFailed
  | scanFailed
  | mismatch
  | iterFailed
deriving DecidableEq, Repr

/-- Result of the row loop: a fatal abort, or completion with the final
value of the processed counter `i`. -/
inductive LoopResult where
  | fatal (e : BenchFatal)
  | done (processed : Nat)
deriving DecidableEq, Repr

/-- The `for rows.Next()` loop of `benchCmd`: scan the row (`none`
models a scan error → `log.Fatal`), hex-decode `rand` (failure → log
and `continue`, without incrementing `i`), recompute the digest and
compare with `hash` (mismatch → `log.Fatal`); on a match increment
`i`. Second argument: current value of `i`. -/
def benchLoop (digest : List (Fin 256) → List (Fin 256)) :
    List (Option BenchRow) → Nat → LoopResult
  | [], i => .done i
  | none :: _, _ => .fatal .scanFailed
  | some row :: rest, i =>
    match hexDecode row.rand with
    | none => benchLoop digest rest i
    | some v =>
      if hexEncode (digest v) = row.hash then benchLoop digest rest (i + 1)
      else .fatal .mismatch

/-- Environment of one `bench` invocation. `closeErr` models the error
returned by `rows.Close()`, which the source discards
(`defer rows.Close()`). `elapsedNs` is the wall-clock nanoseconds
measured for the run (`e := time.Since(start)`). -/
structure BenchEnv where
  openErr : Bool
  queryErr : Bool
  rows : List (Option BenchRow)
  iterErr : Bool
  closeErr : Bool
  elapsedNs : Nat

/-- Outcome of `bench`: fatal abort, runtime panic, or success with the
processed count and the final average nanoseconds per record. -/
inductive BenchOutcome where
  | fatal (e : BenchFatal)
  | panicked
  | ok (processed : Nat) (avgNs : Nat)
deriving DecidableEq, Repr

/-- `benchCmd.Run`: open the store, query all rows, run the loop, check
`rows.Err()` (fatal if non-nil), then log
`time.Duration(e.Nanoseconds()/i)` — an integer division by zero panic
when the processed counter `i` is zero. The `rows.Close()` error
(`closeErr`) is never consulted. -/
def benchRun (digest : List (Fin 256) → List (Fin 256)) (env : BenchEnv) :
    BenchOutcome :=
  if env.openErr then .fatal .openFailed
  else if env.queryErr then .fatal .queryFailed
  else
    match benchLoop digest env.rows 0 with
    | .fatal e => .fatal e
    | .done i =>
      if env.iterErr then .fatal .iterFailed
      else if i = 0 then .panicked
      else .ok i (env.elapsedNs / i)

/-- Number of rows whose `rand` column hex-decodes (candidate rows for
the processed counter). -/
def decodeOkCount (rows : List (Option BenchRow)) : Nat :=
  rows.countP fun r =>
    match r with
    | some row => (hexDecode row.rand).isSome
    | none => false

/-- Number of rows skipped for a hex-decode failure. -/
def skippedCount (rows : List (Option BenchRow)) : Nat :=
  rows.countP fun r =>
    match r with
    | some row => (hexDecode row.rand).isNone
    | none => false

/-! ## Progress-reporter ticker periods

`generate` registers the flag `--interval`/`-i` into `logSeconds`
(default 2), but both progress goroutines construct their ticker as
`time.NewTicker(time.Second * 2)`: the period is a hardcoded two
seconds and `logSeconds` is never read. -/

/-- Default of the `--interval` flag (`init` in `cmd/root.go`). -/
def logSecondsDefault : Int := 2

/-- Ticker period (nanoseconds) of the `generate` progress goroutine,
as a function of the `logSeconds` flag value: the source ignores the
flag and uses `time.Second * 2`. -/
def generateTickerPeriodNs (logSecs : Int) : Int := 2 * 1000000000

/-- Ticker period (nanoseconds) of the `bench` progress goroutine:
`time.Second * 2`, with no flag at all. -/
def benchTickerPeriodNs : Int := 2 * 1000000000

/-! ## Helper lemmas about `generate` -/

/-- With no injected loop errors and a valid prepared statement, the
insert loop starting at index `i` for `k` iterations emits exactly one
`INSERT` per index `i, i+1, …, i+k-1` and stops normally. -/
theorem genLoop_clean (digest : List (Fin 256) → List (Fin 256)) (env : GenEnv)
    (hp : env.prepareErr = false) (hr : ∀ j, env.randErr j = false)
    (hins : ∀ j, env.insertErr j = false) :
    ∀ k i, genLoop digest env i k =
      ((List.range' i k).map fun (m : Nat) =>
        SqlStmt.insertRow (m : Int) (hexEncode (env.oracle m))
          (hexEncode (digest (env.oracle m))), none) := by
  intro k
  induction k with
  | zero => intro i; rfl
  | succ k ih =>
    intro i
    rw [genLoop, hp, hr i, hins i, ih (i + 1), List.range'_succ]
    simp

/-- Executing a list of `INSERT` statements built from rows appends those
rows to the table. -/
theorem runStmts_inserts (rs : List Row) :
    ∀ t, runStmts (some t) (rs.map fun r => SqlStmt.insertRow r.id r.rand r.hash)
      = some (t ++ rs) := by
  induction rs with
  | nil => intro t; simp [runStmts]
  | cons r rs ih =>
    intro t
    show runStmts (applyStmt (some t) (SqlStmt.insertRow r.id r.rand r.hash))
      (rs.map fun r => SqlStmt.insertRow r.id r.rand r.hash) = some (t ++ r :: rs)
    rw [applyStmt, ih (t ++ [r])]
    simp

/-- With no injected errors and `--vacuum` off, `generate` executes
exactly `DROP`, `CREATE`, then one `INSERT` per index `0, …, numRecs-1`
carrying the hex-encoded random bytes and the hex-encoded digest. -/
theorem generateRun_clean_trace (digest : List (Fin 256) → List (Fin 256)) (env : GenEnv)
    (ho : env.openErr = false) (hd : env.dropErr = false) (hc : env.createErr = false)
    (hp : env.prepareErr = false) (hr : ∀ j, env.randErr j = false)
    (hins : ∀ j, env.insertErr j = false) (hv : env.vacuum = false) :
    (generateRun digest env).2 = SqlStmt.dropBench :: SqlStmt.createBench ::
      ((List.range env.numRecs.toNat).map fun (m : Nat) =>
        SqlStmt.insertRow (m : Int) (hexEncode (env.oracle m))
          (hexEncode (digest (env.oracle m)))) := by
  rw [List.range_eq_range']
  unfold generateRun
  rw [ho, hd, hc, genLoop_clean digest env hp hr hins]
  by_cases hn : env.numRecs = 0 <;> simp [hn, hv]

/-- The table contents produced by a clean `generate` run, starting from
any prior database state. -/
theorem generateEffect_clean (digest : List (Fin 256) → List (Fin 256)) (env : GenEnv)
    (s : Option (List Row))
    (ho : env.openErr = false) (hd : env.dropErr = false) (hc : env.createErr = false)
    (hp : env.prepareErr = false) (hr : ∀ j, env.randErr j = false)
    (hins : ∀ j, env.insertErr j = false) (hv : env.vacuum = false) :
    generateEffect digest env s = some ((List.range env.numRecs.toNat).map fun (m : Nat) =>
      Row.mk (m : Int) (hexEncode (env.oracle m)) (hexEncode (digest (env.oracle m)))) := by
  unfold generateEffect
  rw [generateRun_clean_trace digest env ho hd hc hp hr hins hv]
  show runStmts (applyStmt (applyStmt s .dropBench) .createBench)
    ((List.range env.numRecs.toNat).map fun (m : Nat) =>
      SqlStmt.insertRow (m : Int) (hexEncode (env.oracle m))
        (hexEncode (digest (env.oracle m)))) = _
  have hmap : ((List.range env.numRecs.toNat).map fun (m : Nat) =>
      SqlStmt.insertRow (m : Int) (hexEncode (env.oracle m))
        (hexEncode (digest (env.oracle m))))
      = ((List.range env.numRecs.toNat).map fun (m : Nat) =>
          Row.mk (m : Int) (hexEncode (env.oracle m))
            (hexEncode (digest (env.oracle m)))).map
          fun r => SqlStmt.insertRow r.id r.rand r.hash := by
    rw [List.map_map]
    rfl
  rw [hmap, applyStmt, applyStmt, runStmts_inserts]
  simp

/-- C1: For every integer N ≥ 0, after `generate(N)` completes its
insert loop, the table `bench` contains exactly N rows whose ids are
`0..N-1`, written one at a time in strict ascending id order, and for
every row the stored `hash` column equals the hex-encoded digest of the
decoded `rand` column. -/
theorem generate_table_correct (digest : List (Fin 256) → List (Fin 256))
    (env : GenEnv) (N : Nat) (s : Option (List Row))
    (hN : env.numRecs = (N : Int))
    (ho : env.openErr = false) (hd : env.dropErr = false) (hc : env.createErr = false)
    (hp : env.prepareErr = false) (hr : ∀ j, env.randErr j = false)
    (hins : ∀ j, env.insertErr j = false) (hv : env.vacuum = false) :
    ∃ rows, generateEffect digest env s = some rows
      ∧ rows.length = N
      ∧ (∀ j, (h : j < rows.length) → (rows.get ⟨j, h⟩).id = (j : Int))
      ∧ (∀ r ∈ rows, ∃ v, hexDecode r.rand = some v ∧ r.hash = hexEncode (digest v))
      ∧ (generateRun digest env).2 = SqlStmt.dropBench :: SqlStmt.createBench ::
          ((List.range N).map fun (m : Nat) =>
            SqlStmt.insertRow (m : Int) (hexEncode (env.oracle m))
              (hexEncode (digest (env.oracle m)))) := by
  have htn : env.numRecs.toNat = N := by rw [hN, Int.toNat_natCast]
  refine ⟨(List.range N).map fun (m : Nat) =>
    Row.mk (m : Int) (hexEncode (env.oracle m)) (hexEncode (digest (env.oracle m))),
    ?_, ?_, ?_, ?_, ?_⟩
  · rw [generateEffect_clean digest env s ho hd hc hp hr hins hv, htn]
  · simp
  · intro j h
    simp [List.get_eq_getElem]
  · intro r hrr
    rcases List.mem_map.mp hrr with ⟨m, _, hm⟩
    exact ⟨env.oracle m, by rw [← hm]; exact hexDecode_hexEncode (env.oracle m), by rw [← hm]⟩
  · rw [generateRun_clean_trace digest env ho hd hc hp hr hins hv, htn]

/-! ## Concrete instances used by witnesses -/

/-- A concrete digest function for witnesses (the claims hold for every
digest parameter). -/
def digest0 : List (Fin 256) → List (Fin 256) := fun _ => List.replicate 32 0

/-- A concrete random oracle for witnesses. -/
def oracle0 : Nat → List (Fin 256) := fun _ => List.replicate 8 0

/-- No injected error at any loop index. -/
def noErr : Nat → Bool := fun _ => false

/-- Witness environment for a clean two-record `generate` run. -/
def envGen2 : GenEnv := ⟨2, false, false, false, false, false, noErr, noErr, oracle0⟩

/-- A row whose `rand` decodes to the byte `0x00` and whose `hash` is the
correct digest under `digest0`. -/
def goodRow : BenchRow := ⟨0, ['0', '0'], hexEncode (digest0 [(0 : Fin 256)])⟩

/-- A row whose `rand` decodes but whose stored `hash` is wrong. -/
def badHashRow : BenchRow := ⟨0, ['0', '0'], []⟩

/-- A row whose `rand` is not valid hex. -/
def badHexRow : BenchRow := ⟨1, ['z', 'z'], []⟩

/-- C1 witness. -/
theorem generate_table_correct_witness :
    ∃ rows, generateEffect digest0 envGen2 none = some rows
      ∧ rows.length = 2
      ∧ (∀ j, (h : j < rows.length) → (rows.get ⟨j, h⟩).id = (j : Int))
      ∧ (∀ r ∈ rows, ∃ v, hexDecode r.rand = some v ∧ r.hash = hexEncode (digest0 v))
      ∧ (generateRun digest0 envGen2).2 = SqlStmt.dropBench :: SqlStmt.createBench ::
          ((List.range 2).map fun (m : Nat) =>
            SqlStmt.insertRow (m : Int) (hexEncode (envGen2.oracle m))
              (hexEncode (digest0 (envGen2.oracle m)))) :=
  generate_table_correct digest0 envGen2 2 none rfl rfl rfl rfl rfl
    (fun _ => rfl) (fun _ => rfl) rfl

/-! ## The `bench` loop: row-level behaviour -/

/-- C3 amended: During `bench`, a row whose `rand` column is not valid
hex is logged and skipped: the processed counter is not incremented and
the loop continues (first conjunct). All other row-level outcomes
terminate the run or increment the counter: a scan error is fatal
(second), a digest mismatch is fatal (third), and a matching row
continues with the counter incremented (fourth) — so a decode failure
is the only ROW-LEVEL error class that does not terminate the run. It
is not the only such error class overall: the discarded `rows.Close()`
error is likewise non-terminating (see the accompanying
counterexample). -/
theorem bench_decode_skip (digest : List (Fin 256) → List (Fin 256)) :
    (∀ (row : BenchRow) (rest : List (Option BenchRow)) (i : Nat),
      hexDecode row.rand = none →
      benchLoop digest (some row :: rest) i = benchLoop digest rest i)
  ∧ (∀ (rest : List (Option BenchRow)) (i : Nat),
      benchLoop digest (none :: rest) i = .fatal .scanFailed)
  ∧ (∀ (row : BenchRow) (rest : List (Option BenchRow)) (i : Nat) (v : List (Fin 256)),
      hexDecode row.rand = some v → hexEncode (digest v) ≠ row.hash →
      benchLoop digest (some row :: rest) i = .fatal .mismatch)
  ∧ (∀ (row : BenchRow) (rest : List (Option BenchRow)) (i : Nat) (v : List (Fin 256)),
      hexDecode row.rand = some v → hexEncode (digest v) = row.hash →
      benchLoop digest (some row :: rest) i = benchLoop digest rest (i + 1)) := by
  refine ⟨?_, ?_, ?_, ?_⟩
  · intro row rest i h
    simp only [benchLoop, h]
  · intro rest i
    rfl
  · intro row rest i v h hne
    simp only [benchLoop, h]
    rw [if_neg hne]
  · intro row rest i v h he
    simp only [benchLoop, h]
    rw [if_pos he]

/-- C3 witness. -/
theorem bench_decode_skip_witness :
    benchLoop digest0 [some badHexRow] 0 = benchLoop digest0 [] 0 :=
  (bench_decode_skip digest0).1 badHexRow [] 0 (by decide)

/-- C3 counterexample: a hex-decode failure is NOT the only error class
that lets the run continue — here a run whose `rows.Close()` fails (its
error is discarded by the deferred close) skips one bad-hex row and
still completes normally, so the close failure is a second
non-terminating error class. -/
theorem bench_skip_not_only_nonfatal :
    benchRun digest0 ⟨false, false, [some badHexRow, some goodRow], false, true, 80⟩
      = .ok 1 80
  ∧ ¬ ∃ e, benchRun digest0 ⟨false, false, [some badHexRow, some goodRow], false, true, 80⟩
      = BenchOutcome.fatal e := by
  constructor
  · rfl
  · rintro ⟨e, h⟩
    have h1 : benchRun digest0
        ⟨false, false, [some badHexRow, some goodRow], false, true, 80⟩ = .ok 1 80 := rfl
    rw [h1] at h
    simp at h

/-- If every row before the bad one is scannable and either skipped or
matching, the loop aborts with `mismatch` at the bad row, whatever
follows it. -/
theorem benchLoop_mismatch (digest : List (Fin 256) → List (Fin 256))
    (bad : BenchRow) (v : List (Fin 256))
    (hv : hexDecode bad.rand = some v) (hne : hexEncode (digest v) ≠ bad.hash) :
    ∀ (pre rest : List (Option BenchRow)) (i : Nat),
      (∀ r ∈ pre, ∃ row, r = some row ∧ (hexDecode row.rand = none ∨
        ∃ w, hexDecode row.rand = some w ∧ hexEncode (digest w) = row.hash)) →
      benchLoop digest (pre ++ some bad :: rest) i = .fatal .mismatch := by
  intro pre
  induction pre with
  | nil =>
    intro rest i _
    show benchLoop digest (some bad :: rest) i = _
    simp only [benchLoop, hv]
    rw [if_neg hne]
  | cons r pre ih =>
    intro rest i hclean
    rcases hclean r (by simp) with ⟨row, hr, hcase⟩
    subst hr
    have hclean' : ∀ r ∈ pre, ∃ row, r = some row ∧ (hexDecode row.rand = none ∨
        ∃ w, hexDecode row.rand = some w ∧ hexEncode (digest w) = row.hash) :=
      fun r hr => hclean r (by simp [hr])
    rcases hcase with hnone | ⟨w, hw, hmatch⟩
    · show benchLoop digest (some row :: (pre ++ some bad :: rest)) i = _
      simp only [benchLoop, hnone]
      exact ih rest i hclean'
    · show benchLoop digest (some row :: (pre ++ some bad :: rest)) i = _
      simp only [benchLoop, hw]
      rw [if_pos hmatch]
      exact ih rest (i + 1) hclean'

/-- C2: During `bench`, a row whose recomputed digest differs from the
stored hash aborts the whole run fatally (`log.Fatal`, non-zero exit);
the loop never continues past it, whatever rows follow. -/
theorem bench_mismatch_fatal (digest : List (Fin 256) → List (Fin 256))
    (env : BenchEnv) (pre rest : List (Option BenchRow)) (bad : BenchRow)
    (v : List (Fin 256))
    (ho : env.openErr = false) (hq : env.queryErr = false)
    (hrows : env.rows = pre ++ some bad :: rest)
    (hclean : ∀ r ∈ pre, ∃ row, r = some row ∧ (hexDecode row.rand = none ∨
      ∃ w, hexDecode row.rand = some w ∧ hexEncode (digest w) = row.hash))
    (hv : hexDecode bad.rand = some v) (hne : hexEncode (digest v) ≠ bad.hash) :
    benchRun digest env = .fatal .mismatch := by
  unfold benchRun
  rw [ho, hq, hrows, benchLoop_mismatch digest bad v hv hne pre rest 0 hclean]
  simp

/-- C2 witness. -/
theorem bench_mismatch_fatal_witness :
    benchRun digest0 ⟨false, false, [some badHashRow], false, false, 7⟩ = .fatal .mismatch :=
  bench_mismatch_fatal digest0 ⟨false, false, [some badHashRow], false, false, 7⟩
    [] [] badHashRow [(0 : Fin 256)] rfl rfl rfl
    (fun r hr => absurd hr (List.not_mem_nil r)) (by decide) (by decide)

/-! ## Division by zero in the final statistics (C4) -/

/-- C4 evidence: `generate --records 0` reaches
`dur.Nanoseconds()/int64(numRecs)` with `numRecs = 0`, and `bench` over
an empty table reaches `e.Nanoseconds()/i` with `i = 0`; both are Go
integer divisions by zero, i.e. runtime panics, so neither run completes
nor reports zero processed records. -/
theorem generate_zero_bench_empty_divzero :
    (generateRun digest0 ⟨0, false, false, false, false, false, noErr, noErr, oracle0⟩).1
      = .panicked
  ∧ benchRun digest0 ⟨false, false, [], false, false, 12345⟩ = .panicked := by
  constructor
  · rfl
  · rfl

/-! ## The `--interval` flag is dead (C5) -/

/-- C5 evidence: both progress goroutines tick at the hardcoded
`time.Second * 2`; supplying `--interval 5` leaves the period at 2
seconds, and `bench` has no interval flag at all. -/
theorem interval_flag_ignored :
    generateTickerPeriodNs logSecondsDefault = 2 * 1000000000
  ∧ generateTickerPeriodNs 5 = 2 * 1000000000
  ∧ generateTickerPeriodNs 5 ≠ 5 * 1000000000
  ∧ benchTickerPeriodNs = 2 * 1000000000 := by
  refine ⟨rfl, rfl, by decide, rfl⟩

/-! ## Failure handling in `generate` (C6) -/

/-- Witness environment: `db.Prepare` fails, everything else succeeds. -/
def envPrepErr : GenEnv := ⟨1, false, false, false, false, true, noErr, noErr, oracle0⟩

/-- C6 counterexample: when only `db.Prepare` fails, `generate` does not
abort with a descriptive fatal error — the discarded error leaves the
statement nil and the first `st.Exec` panics instead. -/
theorem generate_prepare_err_not_fatal :
    (generateRun digest0 envPrepErr).1 = .panicked
  ∧ ¬ ∃ e, (generateRun digest0 envPrepErr).1 = GenOutcome.fatal e := by
  constructor
  · rfl
  · rintro ⟨e, h⟩
    have h1 : (generateRun digest0 envPrepErr).1 = .panicked := rfl
    rw [h1] at h
    simp at h

/-- If some index below the iteration count has an injected `rand.Read`
or `st.Exec` error (and the prepared statement is valid), the loop stops
with a fatal cause. -/
theorem genLoop_stops (digest : List (Fin 256) → List (Fin 256)) (env : GenEnv)
    (hp : env.prepareErr = false) :
    ∀ (k i j : Nat), i ≤ j → j < i + k →
      (env.randErr j = true ∨ env.insertErr j = true) →
      ∃ st, (genLoop digest env i k).2 = some st
        ∧ (st = GenStop.randFatal ∨ st = GenStop.insertFatal) := by
  intro k
  induction k with
  | zero =>
    intro i j h1 h2 _
    exact absurd h2 (by omega)
  | succ k ih =>
    intro i j h1 h2 h3
    by_cases hri : env.randErr i = true
    · exact ⟨.randFatal, by rw [genLoop, if_pos hri], Or.inl rfl⟩
    · have hri' : env.randErr i = false := by simpa using hri
      by_cases hii : env.insertErr i = true
      · exact ⟨.insertFatal, by rw [genLoop, hri', hp, hii]; rfl, Or.inr rfl⟩
      · have hii' : env.insertErr i = false := by simpa using hii
        have hij : i ≠ j := by
          rintro rfl
          rcases h3 with h | h
          · exact absurd h (by simp [hri'])
          · exact absurd h (by simp [hii'])
        rcases ih (i + 1) j (by omega) (by omega) h3 with ⟨st, hst, hor⟩
        refine ⟨st, ?_, hor⟩
        rw [genLoop, hri', hp, hii']
        simpa using hst

/-- With a failed `db.Prepare` and no `rand.Read` error, a positive
iteration count reaches the nil-statement panic. -/
theorem genLoop_prepare_panic (digest : List (Fin 256) → List (Fin 256)) (env : GenEnv)
    (hp : env.prepareErr = true) (hr : ∀ j, env.randErr j = false) :
    ∀ (k i : Nat), 0 < k → (genLoop digest env i k).2 = some GenStop.nilStmtPanic := by
  intro k i hk
  cases k with
  | zero => omega
  | succ k => rw [genLoop, hr i, hp]; rfl

/-- C6 amended: failures to open the store, drop or create the table,
obtain randomness, or execute an insert are fatal with a descriptive
error; a `db.Prepare` failure alone is NOT — its error is discarded
(`st, _ := db.Prepare`), and the run instead panics at the first insert. -/
theorem generate_failures_fatal (digest : List (Fin 256) → List (Fin 256))
    (env : GenEnv) :
    (env.openErr = true → (generateRun digest env).1 = .fatal .openFailed)
  ∧ (env.openErr = false → env.dropErr = true →
      (generateRun digest env).1 = .fatal .dropFailed)
  ∧ (env.openErr = false → env.dropErr = false → env.createErr = true →
      (generateRun digest env).1 = .fatal .createFailed)
  ∧ (env.openErr = false → env.dropErr = false → env.createErr = false →
      env.prepareErr = false → ∀ j, j < env.numRecs.toNat →
      (env.randErr j = true ∨ env.insertErr j = true) →
      ((generateRun digest env).1 = .fatal .randFailed ∨
        (generateRun digest env).1 = .fatal .insertFailed))
  ∧ (env.openErr = false → env.dropErr = false → env.createErr = false →
      env.prepareErr = true → (∀ j, env.randErr j = false) →
      0 < env.numRecs.toNat → (generateRun digest env).1 = .panicked) := by
  refine ⟨?_, ?_, ?_, ?_, ?_⟩
  · intro h
    simp [generateRun, h]
  · intro h1 h2
    simp [generateRun, h1, h2]
  · intro h1 h2 h3
    simp [generateRun, h1, h2, h3]
  · intro h1 h2 h3 hp j hj herr
    rcases genLoop_stops digest env hp env.numRecs.toNat 0 j (Nat.zero_le j)
      (by omega) herr with ⟨st, hst, hor⟩
    rcases hor with rfl | rfl
    · left
      simp [generateRun, h1, h2, h3, hst]
    · right
      simp [generateRun, h1, h2, h3, hst]
  · intro h1 h2 h3 hp hr hn
    have hloop := genLoop_prepare_panic digest env hp hr env.numRecs.toNat 0 hn
    simp [generateRun, h1, h2, h3, hloop]

/-- C6 amended witness: an open failure is fatal with the descriptive
message. -/
theorem generate_failures_fatal_witness :
    (generateRun digest0 ⟨1, false, true, false, false, false, noErr, noErr, oracle0⟩).1
      = .fatal .openFailed :=
  (generate_failures_fatal digest0
    ⟨1, false, true, false, false, false, noErr, noErr, oracle0⟩).1 rfl

/-! ## Idempotence of `generate` (C7) -/

theorem applyStmt_drop (s : Option (List Row)) : applyStmt s .dropBench = none := by
  cases s <;> rfl

theorem runStmts_cons (s : Option (List Row)) (a : SqlStmt) (l : List SqlStmt) :
    runStmts s (a :: l) = runStmts (applyStmt s a) l := rfl

/-- Unless opening the store or dropping the table fails, the first
statement `generate` executes is always `DROP TABLE IF EXISTS bench`. -/
theorem generateRun_starts_with_drop (digest : List (Fin 256) → List (Fin 256))
    (env : GenEnv) (ho : env.openErr = false) (hd : env.dropErr = false) :
    ∃ t, (generateRun digest env).2 = SqlStmt.dropBench :: t := by
  unfold generateRun
  by_cases hc : env.createErr = true
  · exact ⟨[], by simp [ho, hd, hc]⟩
  · have hc' : env.createErr = false := by simpa using hc
    rcases hstop : (genLoop digest env 0 env.numRecs.toNat).2 with _ | st
    · by_cases hn : env.numRecs = 0
      · exact ⟨[SqlStmt.createBench], by simp [ho, hd, hc', hn, genLoop]⟩
      · by_cases hv : env.vacuum = true
        · exact ⟨SqlStmt.createBench :: (genLoop digest env 0 env.numRecs.toNat).1
              ++ [SqlStmt.vacuumStmt],
            by simp [ho, hd, hc', hstop, hn, hv]⟩
        · exact ⟨SqlStmt.createBench :: (genLoop digest env 0 env.numRecs.toNat).1,
            by simp [ho, hd, hc', hstop, hn, hv]⟩
    · cases st <;>
        exact ⟨SqlStmt.createBench :: (genLoop digest env 0 env.numRecs.toNat).1,
          by simp [ho, hd, hc', hstop]⟩

/-- C7: A second `generate` run (with any digest and random source)
produces exactly the database state a single run would have produced
from any starting state: the unconditional drop-and-recreate prevents
accumulation across runs. -/
theorem generate_idempotent (digest1 digest2 : List (Fin 256) → List (Fin 256))
    (env1 env2 : GenEnv) (s : Option (List Row))
    (ho : env2.openErr = false) (hd : env2.dropErr = false) :
    generateEffect digest2 env2 (generateEffect digest1 env1 s)
      = generateEffect digest2 env2 s := by
  rcases generateRun_starts_with_drop digest2 env2 ho hd with ⟨t, ht⟩
  unfold generateEffect
  rw [ht, runStmts_cons, runStmts_cons, applyStmt_drop, applyStmt_drop]

/-- C7 witness: running the two-record generation twice from the empty
state equals running it once. -/
theorem generate_idempotent_witness :
    generateEffect digest0 envGen2 (generateEffect digest0 envGen2 none)
      = generateEffect digest0 envGen2 none :=
  generate_idempotent digest0 digest0 envGen2 envGen2 none rfl rfl

/-! ## The final average divisor in `bench` (C8) -/

/-- When the loop completes, the processed counter counts exactly the
rows whose `rand` decodes (all of which matched), the decoded and the
skipped rows partition the input, and every decodable row's digest
matches. -/
theorem benchLoop_done_counts (digest : List (Fin 256) → List (Fin 256)) :
    ∀ (rows : List (Option BenchRow)) (i m : Nat),
      benchLoop digest rows i = .done m →
      m = i + decodeOkCount rows
      ∧ decodeOkCount rows + skippedCount rows = rows.length
      ∧ ∀ r ∈ rows, ∀ row, r = some row → ∀ v, hexDecode row.rand = some v →
          hexEncode (digest v) = row.hash := by
  intro rows
  induction rows with
  | nil =>
    intro i m h
    replace h : LoopResult.done i = .done m := h
    injection h with h
    subst h
    exact ⟨by simp [decodeOkCount], by simp [decodeOkCount, skippedCount], by simp⟩
  | cons r rest ih =>
    intro i m h
    cases r with
    | none =>
      replace h : LoopResult.fatal .scanFailed = .done m := h
      exact absurd h (by simp)
    | some row =>
      rcases hdec : hexDecode row.rand with _ | v
      · simp only [benchLoop, hdec] at h
        rcases ih i m h with ⟨h1, h2, h3⟩
        have hok : decodeOkCount (some row :: rest) = decodeOkCount rest := by
          simp [decodeOkCount, List.countP_cons, hdec]
        have hsk : skippedCount (some row :: rest) = skippedCount rest + 1 := by
          simp [skippedCount, List.countP_cons, hdec]
        refine ⟨by rw [hok]; exact h1, by rw [hok, hsk, List.length_cons]; omega, ?_⟩
        intro r hrmem row' hrow' v hv
        rcases List.mem_cons.mp hrmem with hr | hr
        · rw [hr] at hrow'
          injection hrow' with he
          subst he
          rw [hdec] at hv
          exact absurd hv (by simp)
        · exact h3 r hr row' hrow' v hv
      · simp only [benchLoop, hdec] at h
        by_cases hm : hexEncode (digest v) = row.hash
        · rw [if_pos hm] at h
          rcases ih (i + 1) m h with ⟨h1, h2, h3⟩
          have hok : decodeOkCount (some row :: rest) = decodeOkCount rest + 1 := by
            simp [decodeOkCount, List.countP_cons, hdec]
          have hsk : skippedCount (some row :: rest) = skippedCount rest := by
            simp [skippedCount, List.countP_cons, hdec]
          refine ⟨by rw [hok]; omega, by rw [hok, hsk, List.length_cons]; omega, ?_⟩
          intro r hrmem row' hrow' w hw
          rcases List.mem_cons.mp hrmem with hr | hr
          · rw [hr] at hrow'
            injection hrow' with he
            subst he
            rw [hdec] at hw
            injection hw with he2
            subst he2
            exact hm
          · exact h3 r hr row' hrow' w hw
        · rw [if_neg hm] at h
          exact absurd h (by simp)

/-- C8: When `bench` succeeds, its final average is the elapsed time
divided by the post-skip processed count — the number of successfully
verified rows — which is the number of hex-decodable rows, not the
nominal number of rows read (the skipped rows are excluded from the
divisor). -/
theorem bench_avg_divisor (digest : List (Fin 256) → List (Fin 256))
    (env : BenchEnv) (n avg : Nat)
    (h : benchRun digest env = .ok n avg) :
    avg = env.elapsedNs / n
  ∧ 0 < n
  ∧ n = decodeOkCount env.rows
  ∧ n + skippedCount env.rows = env.rows.length
  ∧ (∀ r ∈ env.rows, ∀ row, r = some row → ∀ v, hexDecode row.rand = some v →
      hexEncode (digest v) = row.hash) := by
  unfold benchRun at h
  by_cases ho : env.openErr <;> simp [ho] at h
  by_cases hq : env.queryErr <;> simp [hq] at h
  rcases hloop : benchLoop digest env.rows 0 with e | m <;> rw [hloop] at h
  · simp at h
  · by_cases hit : env.iterErr <;> simp [hit] at h
    by_cases hm : m = 0
    · rw [if_pos hm] at h
      simp at h
    · rw [if_neg hm] at h
      simp only [BenchOutcome.ok.injEq] at h
      rcases h with ⟨hn1, havg⟩
      subst hn1
      rcases benchLoop_done_counts digest env.rows 0 m hloop with ⟨h1, h2, h3⟩
      exact ⟨havg.symm, by omega, by omega, by omega, h3⟩

/-- C8 witness: with one verified row and one skipped row, the divisor
is 1, not the nominal row count 2. -/
theorem bench_avg_divisor_witness :
    100 = (BenchEnv.mk false false [some goodRow, some badHexRow] false false 100).elapsedNs / 1
  ∧ 0 < 1
  ∧ 1 = decodeOkCount (BenchEnv.mk false false [some goodRow, some badHexRow] false false 100).rows
  ∧ 1 + skippedCount (BenchEnv.mk false false [some goodRow, some badHexRow] false false 100).rows
      = (BenchEnv.mk false false [some goodRow, some badHexRow] false false 100).rows.length
  ∧ (∀ r ∈ (BenchEnv.mk false false [some goodRow, some badHexRow] false false 100).rows,
      ∀ row, r = some row → ∀ v, hexDecode row.rand = some v →
        hexEncode (digest0 v) = row.hash) :=
  bench_avg_divisor digest0
    (BenchEnv.mk false false [some goodRow, some badHexRow] false false 100) 1 100 rfl

/-! ## Store-level errors in `bench` (C9) -/

/-- Witness environment: `rows.Close()` fails, everything else succeeds. -/
def envCloseErr : BenchEnv := ⟨false, false, [some goodRow], false, true, 50⟩

/-- C9 counterexample: a failing `rows.Close()` does not abort the run —
the deferred `rows.Close()` discards its error and `bench` completes
normally. -/
theorem bench_close_err_ignored :
    benchRun digest0 envCloseErr = .ok 1 50
  ∧ ¬ ∃ e, benchRun digest0 envCloseErr = BenchOutcome.fatal e := by
  constructor
  · rfl
  · rintro ⟨e, h⟩
    have h1 : benchRun digest0 envCloseErr = .ok 1 50 := rfl
    rw [h1] at h
    simp at h

/-- C9 amended: the query failing, a scan or iteration error, and a
digest mismatch are all fatal, but the cursor-close error is discarded:
`benchRun` does not depend on it at all (last conjunct). -/
theorem bench_store_errors_fatal (digest : List (Fin 256) → List (Fin 256))
    (env : BenchEnv) :
    (env.openErr = true → benchRun digest env = .fatal .openFailed)
  ∧ (env.openErr = false → env.queryErr = true →
      benchRun digest env = .fatal .queryFailed)
  ∧ (∀ e, env.openErr = false → env.queryErr = false →
      benchLoop digest env.rows 0 = .fatal e → benchRun digest env = .fatal e)
  ∧ (∀ m, env.openErr = false → env.queryErr = false →
      benchLoop digest env.rows 0 = .done m → env.iterErr = true →
      benchRun digest env = .fatal .iterFailed)
  ∧ (∀ o q rows it c c' el, benchRun digest ⟨o, q, rows, it, c, el⟩
      = benchRun digest ⟨o, q, rows, it, c', el⟩) := by
  refine ⟨?_, ?_, ?_, ?_, ?_⟩
  · intro h
    simp [benchRun, h]
  · intro h1 h2
    simp [benchRun, h1, h2]
  · intro e h1 h2 hloop
    simp [benchRun, h1, h2, hloop]
  · intro m h1 h2 hloop hit
    simp [benchRun, h1, h2, hloop, hit]
  · intro o q rows it c c' el
    rfl

/-- C9 amended witness: a query failure is fatal. -/
theorem bench_store_errors_fatal_witness :
    benchRun digest0 ⟨false, true, [], false, false, 0⟩ = .fatal .queryFailed :=
  (bench_store_errors_fatal digest0 ⟨false, true, [], false, false, 0⟩).2.1 rfl rfl

/-! ## `generate` with a non-positive record count (C10) -/

/-- C10: for every `numRecs ≤ 0`, `generate` still unconditionally
drops and recreates `bench` — the trace starts with `DROP; CREATE`,
contains no insert, and the resulting table is fresh and empty whatever
the prior state; no positivity check guards the destructive step. -/
theorem generate_nonpositive_drop_create (digest : List (Fin 256) → List (Fin 256))
    (env : GenEnv) (hn : env.numRecs ≤ 0)
    (ho : env.openErr = false) (hd : env.dropErr = false) (hc : env.createErr = false) :
    (∃ t, (generateRun digest env).2 = SqlStmt.dropBench :: SqlStmt.createBench :: t)
  ∧ (∀ st ∈ (generateRun digest env).2, ∀ a r h, st ≠ SqlStmt.insertRow a r h)
  ∧ (∀ s, generateEffect digest env s = some []) := by
  have htn : env.numRecs.toNat = 0 := Int.toNat_eq_zero.mpr hn
  have hloop : genLoop digest env 0 0 = ([], none) := rfl
  have htr : (generateRun digest env).2 = [SqlStmt.dropBench, SqlStmt.createBench]
      ∨ (generateRun digest env).2
        = [SqlStmt.dropBench, SqlStmt.createBench, SqlStmt.vacuumStmt] := by
    by_cases hn0 : env.numRecs = 0
    · left
      simp [generateRun, ho, hd, hc, htn, hloop, hn0]
    · by_cases hv : env.vacuum = true
      · right
        simp [generateRun, ho, hd, hc, htn, hloop, hn0, hv]
      · left
        simp [generateRun, ho, hd, hc, htn, hloop, hn0, hv]
  refine ⟨?_, ?_, ?_⟩
  · rcases htr with h | h
    · exact ⟨[], by rw [h]⟩
    · exact ⟨[SqlStmt.vacuumStmt], by rw [h]⟩
  · intro st hst a r h
    rcases htr with htr | htr
    · rw [htr] at hst
      simp at hst
      rcases hst with rfl | rfl <;> simp
    · rw [htr] at hst
      simp at hst
      rcases hst with rfl | rfl | rfl <;> simp
  · intro s
    unfold generateEffect
    rcases htr with h | h <;> rw [h] <;>
      simp [runStmts, applyStmt_drop, applyStmt]

/-- C10 witness at `--records -3`. -/
theorem generate_nonpositive_drop_create_witness :
    (∃ t, (generateRun digest0 ⟨-3, false, false, false, false, false, noErr, noErr, oracle0⟩).2
        = SqlStmt.dropBench :: SqlStmt.createBench :: t)
  ∧ (∀ st ∈ (generateRun digest0
        ⟨-3, false, false, false, false, false, noErr, noErr, oracle0⟩).2,
      ∀ a r h, st ≠ SqlStmt.insertRow a r h)
  ∧ (∀ s, generateEffect digest0
      ⟨-3, false, false, false, false, false, noErr, noErr, oracle0⟩ s = some []) :=
  generate_nonpositive_drop_create digest0
    ⟨-3, false, false, false, false, false, noErr, noErr, oracle0⟩
    (by decide) rfl rfl rfl

end Sqlite3perf
